import Mathlib

/-!
Shallow embedding of the `elapsed` crate (src/lib.rs).

The crate wraps `std::time::Duration` (whole seconds as `u64`, sub-second
nanoseconds as `u32 < 1_000_000_000`) in `ElapsedDuration`, exposes the
accessors `seconds`, `millis`, `micros`, `nanos` computed in `u64`
arithmetic, renders the value via a `Display` impl that picks the coarsest
non-zero unit, and offers `measure_time` which samples a monotonic clock
around a closure call.

Modelling choices:
* `u64` values are `Nat`; every `u64` arithmetic step of the source that
  can overflow (or underflow) is modelled with an explicit check returning
  `Option Nat`, `none` standing for the debug-mode panic that the test
  `panics_on_huge_times` of the crate itself relies on.
* `Instant` is a `Nat` of nanoseconds since an arbitrary epoch; the two
  clock samples taken by `measure_time` are passed explicitly.
* The rendering `write!(cursor, "{:.2} {}", frac_time, t)` computes
  `frac_time = d1 as f64 + ((d2 - d1 * 1000) as f64) / 1000.0`, an integer
  plus a number of thousandths, and prints it with two decimal digits.  It
  is modelled exactly on the thousandths value `d1 * 1000 + (d2 - d1 * 1000)`
  with round-half-to-even at the third decimal digit.  This agrees with the
  `f64` rendering of the source whenever the third decimal digit of the
  exact value is not a borderline `5` perturbed by binary rounding; every
  input appearing in the theorems below has thousandths in {0, 300}, where
  the two renderings coincide digit for digit.
-/

/-- First integer past the `u64` range: `2 ^ 64`. -/
def U64_MOD : Nat := 18446744073709551616

/-- Model of `std::time::Duration`: whole seconds plus sub-second nanoseconds.
The platform type keeps `subsecNanos < 1_000_000_000` and `secs` within
`u64`; those facts are carried as the predicate `ElapsedDuration.WF`. -/
structure Duration where
  secs : Nat
  subsecNanos : Nat
deriving DecidableEq

/-- The `ElapsedDuration` newtype wrapper around a `Duration` (src/lib.rs:10). -/
structure ElapsedDuration where
  dur : Duration
deriving DecidableEq

/-- Multiplication in `u64` with debug-mode overflow check: `none` is a panic. -/
def checkedMul (a b : Nat) : Option Nat :=
  if a * b < U64_MOD then some (a * b) else none

/-- Addition in `u64` with debug-mode overflow check: `none` is a panic. -/
def checkedAdd (a b : Nat) : Option Nat :=
  if a + b < U64_MOD then some (a + b) else none

/-- Subtraction in `u64` with debug-mode underflow check: `none` is a panic. -/
def checkedSub (a b : Nat) : Option Nat :=
  if b ≤ a then some (a - b) else none

namespace ElapsedDuration

/-- Rust `ElapsedDuration::new` (src/lib.rs:26): wrap a duration, no validation. -/
def new (d : Duration) : ElapsedDuration := ⟨d⟩

/-- Rust `ElapsedDuration::duration` (src/lib.rs:31): the underlying duration. -/
def duration (e : ElapsedDuration) : Duration := e.dur

/-- Rust `ElapsedDuration::seconds` (src/lib.rs:36): `Duration::as_secs`. -/
def seconds (e : ElapsedDuration) : Nat := e.dur.secs

/-- Private helper `subsec_nanos` (src/lib.rs:55): `Duration::subsec_nanos as u64`. -/
def subsecNanos (e : ElapsedDuration) : Nat := e.dur.subsecNanos

/-- Rust `ElapsedDuration::millis` (src/lib.rs:41):
`self.seconds() * 1000 + self.subsec_nanos() / 1_000_000` in `u64`. -/
def millis (e : ElapsedDuration) : Option Nat :=
  (checkedMul e.seconds 1000).bind fun x => checkedAdd x (e.subsecNanos / 1000000)

/-- Rust `ElapsedDuration::micros` (src/lib.rs:46):
`self.seconds() * 1_000_000 + self.subsec_nanos() / 1_000` in `u64`. -/
def micros (e : ElapsedDuration) : Option Nat :=
  (checkedMul e.seconds 1000000).bind fun x => checkedAdd x (e.subsecNanos / 1000)

/-- Rust `ElapsedDuration::nanos` (src/lib.rs:51):
`self.seconds() * 1_000_000_000 + self.subsec_nanos()` in `u64`. -/
def nanos (e : ElapsedDuration) : Option Nat :=
  (checkedMul e.seconds 1000000000).bind fun x => checkedAdd x e.subsecNanos

/-- Invariants `std::time::Duration` guarantees for the wrapped value. -/
def WF (e : ElapsedDuration) : Prop :=
  e.dur.secs < U64_MOD ∧ e.dur.subsecNanos < 1000000000

instance (e : ElapsedDuration) : Decidable e.WF := by
  unfold WF; infer_instance

/-- The spec formula for `millis()` as exact (unbounded) arithmetic. -/
def specMillis (e : ElapsedDuration) : Nat :=
  e.seconds * 1000 + e.subsecNanos / 1000000

/-- The spec formula for `micros()` as exact (unbounded) arithmetic. -/
def specMicros (e : ElapsedDuration) : Nat :=
  e.seconds * 1000000 + e.subsecNanos / 1000

/-- The spec formula for `nanos()` as exact (unbounded) arithmetic. -/
def specNanos (e : ElapsedDuration) : Nat :=
  e.seconds * 1000000000 + e.subsecNanos

end ElapsedDuration

/-- Decimal digits of `n`, least significant first; `fuel ≥ n` suffices for
all digits.  Models the integer part of the Rust decimal numeral rendering. -/
def natDigitsRev : Nat → Nat → List Char
  | 0, _ => []
  | fuel + 1, n => if n = 0 then [] else Nat.digitChar (n % 10) :: natDigitsRev fuel (n / 10)

/-- Decimal numeral of `n`, as the Rust `Display` for unsigned integers. -/
def natToString (n : Nat) : String :=
  if n = 0 then "0" else String.mk (natDigitsRev n n).reverse

/-- Round a count of thousandths to a count of hundredths, ties to even:
the rounding that `{:.2}` in Rust performs on an exactly-represented value. -/
def roundHalfEven (v : Nat) : Nat :=
  if v % 10 < 5 then v / 10
  else if 5 < v % 10 then v / 10 + 1
  else if v / 10 % 2 = 0 then v / 10 else v / 10 + 1

/-- Two-digit zero-padded rendering of `n < 100`. -/
def twoDigits (n : Nat) : String :=
  if n < 10 then "0" ++ natToString n else natToString n

/-- The `{:.2}` rendering of the value `v / 1000` (`v` a count of thousandths):
integer part, a dot, and two fractional digits. -/
def fmtFixed2 (v : Nat) : String :=
  natToString (roundHalfEven v / 100) ++ "." ++ twoDigits (roundHalfEven v % 100)

namespace ElapsedDuration

/-- The unit-selection chain of `fmt::Display::fmt` (src/lib.rs:90-98):
`(d1, d2, t)` with the coarsest unit whose whole-value accessor is
positive; accessor calls keep their overflow checks. -/
def unitSelect (e : ElapsedDuration) : Option (Nat × Nat × String) :=
  if 0 < e.seconds then
    e.millis.map fun m => (e.seconds, m, "s")
  else
    e.millis.bind fun m =>
      if 0 < m then e.micros.map fun u => (m, u, "ms")
      else
        e.micros.bind fun u =>
          if 0 < u then e.nanos.map fun nv => (u, nv, "μs")
          else e.nanos.bind fun nv => (checkedMul nv 1000).map fun nv3 => (nv, nv3, "ns")

/-- The rendering tail of `fmt::Display::fmt` (src/lib.rs:100-108):
`frac_time = d1 + (d2 - d1 * 1000) / 1000` written as `"{:.2} {}"`, with
the `u64` steps `d1 * 1000` and `d2 - d1 * 1000` kept checked. -/
def render (p : Nat × Nat × String) : Option String :=
  (checkedMul p.1 1000).bind fun m =>
    (checkedSub p.2.1 m).map fun frac => fmtFixed2 (m + frac) ++ " " ++ p.2.2

/-- The bare string produced by `fmt::Display::fmt` before padding;
`none` models a panic (overflow in an accessor or in the `frac_time`
arithmetic, or a failed `write!`). -/
def display (e : ElapsedDuration) : Option String :=
  e.unitSelect.bind render

end ElapsedDuration

/-- The alignment of a Rust format spec. -/
inductive PadAlignment where
  | left
  | right
  | center
deriving DecidableEq

/-- The Rust default alignment for a non-numeric `Display` value. -/
def defaultAlignment : PadAlignment := PadAlignment.left

/-- Rust `Formatter::pad` applied by `f.pad(s)` (src/lib.rs:109): pad `s` with
`fill` to at least `width` characters; left puts the value first, right
puts it last, center splits the padding as `(padding / 2, rest)`. -/
def padStr (s : String) (width : Nat) (align : PadAlignment) (fill : Char) : String :=
  if width ≤ s.length then s
  else
    match align with
    | PadAlignment.left => s ++ String.mk (List.replicate (width - s.length) fill)
    | PadAlignment.right => String.mk (List.replicate (width - s.length) fill) ++ s
    | PadAlignment.center =>
        String.mk (List.replicate ((width - s.length) / 2) fill) ++ s ++
          String.mk (List.replicate (width - s.length - (width - s.length) / 2) fill)

/-- Formatting `ElapsedDuration` inside a format spec with a minimum
width: the `Display` output fed through `Formatter::pad`. -/
def displayPadded (e : ElapsedDuration) (width : Nat) (align : PadAlignment) (fill : Char) :
    Option String :=
  e.display.map fun s => padStr s width align fill

/-- Rust `Instant::now() - start` (src/lib.rs:84): instants are nanosecond
counts of a monotonic clock; subtraction of a later instant panics. -/
def instantSub (later earlier : Nat) : Option Duration :=
  if earlier ≤ later then
    some ⟨(later - earlier) / 1000000000, (later - earlier) % 1000000000⟩
  else none

/-- Rust `measure_time` (src/lib.rs:81-86), with the two `Instant::now()`
samples `t0` (before the call) and `t1` (after the return) passed
explicitly: run `f` once, then wrap the elapsed interval. -/
def measure_time {α : Type} (t0 t1 : Nat) (f : Unit → α) : Option (ElapsedDuration × α) :=
  let r := f ()
  (instantSub t1 t0).map fun d => (ElapsedDuration.new d, r)

/-- C1: each literal example of the spec formats exactly as stated. -/
theorem display_literal_examples :
    ElapsedDuration.display ⟨⟨1, 0⟩⟩ = some "1.00 s" ∧
    ElapsedDuration.display ⟨⟨1, 300000000⟩⟩ = some "1.30 s" ∧
    ElapsedDuration.display ⟨⟨0, 1300000⟩⟩ = some "1.30 ms" ∧
    ElapsedDuration.display ⟨⟨0, 1300⟩⟩ = some "1.30 μs" ∧
    ElapsedDuration.display ⟨⟨0, 1⟩⟩ = some "1.00 ns" ∧
    ElapsedDuration.display ⟨⟨20, 300000000⟩⟩ = some "20.30 s" ∧
    ElapsedDuration.display ⟨⟨0, 0⟩⟩ = some "0.00 ns" := by
  decide

namespace ElapsedDuration

theorem millis_eq (e : ElapsedDuration) (h : e.specMillis < U64_MOD) :
    e.millis = some e.specMillis := by
  unfold specMillis at h ⊢
  unfold millis checkedMul checkedAdd
  rw [if_pos (show e.seconds * 1000 < U64_MOD by omega)]
  rw [Option.some_bind]
  rw [if_pos h]

theorem micros_eq (e : ElapsedDuration) (h : e.specMicros < U64_MOD) :
    e.micros = some e.specMicros := by
  unfold specMicros at h ⊢
  unfold micros checkedMul checkedAdd
  rw [if_pos (show e.seconds * 1000000 < U64_MOD by omega)]
  rw [Option.some_bind]
  rw [if_pos h]

theorem nanos_eq (e : ElapsedDuration) (h : e.specNanos < U64_MOD) :
    e.nanos = some e.specNanos := by
  unfold specNanos at h ⊢
  unfold nanos checkedMul checkedAdd
  rw [if_pos (show e.seconds * 1000000000 < U64_MOD by omega)]
  rw [Option.some_bind]
  rw [if_pos h]

theorem specMillis_lt_of_seconds_eq_zero (e : ElapsedDuration) (hWF : e.WF)
    (h0 : e.seconds = 0) : e.specMillis < U64_MOD := by
  obtain ⟨hsWF, hnWF⟩ := hWF
  have hneq : e.subsecNanos = e.dur.subsecNanos := rfl
  unfold specMillis U64_MOD
  rw [h0]
  omega

theorem specMicros_lt_of_seconds_eq_zero (e : ElapsedDuration) (hWF : e.WF)
    (h0 : e.seconds = 0) : e.specMicros < U64_MOD := by
  obtain ⟨hsWF, hnWF⟩ := hWF
  have hneq : e.subsecNanos = e.dur.subsecNanos := rfl
  unfold specMicros U64_MOD
  rw [h0]
  omega

theorem specNanos_lt_of_seconds_eq_zero (e : ElapsedDuration) (hWF : e.WF)
    (h0 : e.seconds = 0) : e.specNanos < U64_MOD := by
  obtain ⟨hsWF, hnWF⟩ := hWF
  have hneq : e.subsecNanos = e.dur.subsecNanos := rfl
  unfold specNanos U64_MOD
  rw [h0]
  omega

theorem unitSelect_eq (e : ElapsedDuration) (hWF : e.WF) (hov : e.specMillis < U64_MOD) :
    e.unitSelect = some (
      if 0 < e.seconds then (e.seconds, e.specMillis, "s")
      else if 0 < e.specMillis then (e.specMillis, e.specMicros, "ms")
      else if 0 < e.specMicros then (e.specMicros, e.specNanos, "μs")
      else (e.specNanos, e.specNanos * 1000, "ns")) := by
  have hneq : e.subsecNanos = e.dur.subsecNanos := rfl
  unfold unitSelect
  by_cases h0 : 0 < e.seconds
  · rw [if_pos h0, if_pos h0, millis_eq e hov]
    rfl
  · have h0z : e.seconds = 0 := by omega
    rw [if_neg h0, if_neg h0, millis_eq e hov, Option.some_bind]
    by_cases h1 : 0 < e.specMillis
    · rw [if_pos h1, if_pos h1, micros_eq e (e.specMicros_lt_of_seconds_eq_zero hWF h0z)]
      rfl
    · rw [if_neg h1, if_neg h1, micros_eq e (e.specMicros_lt_of_seconds_eq_zero hWF h0z),
        Option.some_bind]
      by_cases h2 : 0 < e.specMicros
      · rw [if_pos h2, if_pos h2, nanos_eq e (e.specNanos_lt_of_seconds_eq_zero hWF h0z)]
        rfl
      · rw [if_neg h2, if_neg h2, nanos_eq e (e.specNanos_lt_of_seconds_eq_zero hWF h0z),
          Option.some_bind]
        unfold checkedMul
        rw [if_pos (show e.specNanos * 1000 < U64_MOD by
          obtain ⟨hsWF, hnWF⟩ := hWF
          unfold specNanos U64_MOD at *
          rw [h0z] at *
          omega)]
        rfl

end ElapsedDuration

/-- C2: formatting picks the coarsest unit whose whole-number accessor is
strictly positive (seconds, then millis, then micros, then nanos), and the
zero duration is classified as nanoseconds, displaying as "0.00 ns". -/
theorem unit_selection_coarsest_first (e : ElapsedDuration) (hWF : e.WF)
    (hov : e.specMillis < U64_MOD) :
    e.unitSelect.map (fun p => p.2.2) =
      some (if 0 < e.seconds then "s"
        else if 0 < e.specMillis then "ms"
        else if 0 < e.specMicros then "μs"
        else "ns") ∧
    ElapsedDuration.display ⟨⟨0, 0⟩⟩ = some "0.00 ns" := by
  refine ⟨?_, by decide⟩
  rw [ElapsedDuration.unitSelect_eq e hWF hov]
  split_ifs <;> rfl

/-- C2 witness: at seconds=0, subsecond=1300 nanoseconds the selected unit
is microseconds. -/
theorem unit_selection_coarsest_first_witness :
    (ElapsedDuration.unitSelect ⟨⟨0, 1300⟩⟩).map (fun p => p.2.2) = some "μs" ∧
    ElapsedDuration.display ⟨⟨0, 0⟩⟩ = some "0.00 ns" :=
  unit_selection_coarsest_first ⟨⟨0, 1300⟩⟩ (by decide) (by decide)

/-- C3: on a duration with whole seconds `s` and subsecond nanoseconds `n`,
when the scalings stay below 2 ^ 64 the accessors return exactly the spec
formulas `s`, `s*1000 + n/1_000_000`, `s*1_000_000 + n/1_000`, and
`s*1_000_000_000 + n`, with integer truncation. -/
theorem accessors_match_spec_formulas (s n : Nat) (_hn : n < 1000000000) (_hs : s < U64_MOD)
    (h1 : s * 1000 + n / 1000000 < U64_MOD)
    (h2 : s * 1000000 + n / 1000 < U64_MOD)
    (h3 : s * 1000000000 + n < U64_MOD) :
    (ElapsedDuration.mk ⟨s, n⟩).seconds = s ∧
    (ElapsedDuration.mk ⟨s, n⟩).millis = some (s * 1000 + n / 1000000) ∧
    (ElapsedDuration.mk ⟨s, n⟩).micros = some (s * 1000000 + n / 1000) ∧
    (ElapsedDuration.mk ⟨s, n⟩).nanos = some (s * 1000000000 + n) :=
  ⟨rfl, ElapsedDuration.millis_eq _ h1, ElapsedDuration.micros_eq _ h2,
    ElapsedDuration.nanos_eq _ h3⟩

/-- C3 witness: the accessors at seconds=92, subsecond=62_013_047. -/
theorem accessors_match_spec_formulas_witness :
    (ElapsedDuration.mk ⟨92, 62013047⟩).seconds = 92 ∧
    (ElapsedDuration.mk ⟨92, 62013047⟩).millis = some 92062 ∧
    (ElapsedDuration.mk ⟨92, 62013047⟩).micros = some 92062013 ∧
    (ElapsedDuration.mk ⟨92, 62013047⟩).nanos = some 92062013047 :=
  accessors_match_spec_formulas 92 62013047 (by decide) (by decide) (by decide) (by decide)
    (by decide)

namespace ElapsedDuration

theorem millis_inv (e : ElapsedDuration) (mv : Nat) (h : e.millis = some mv) :
    mv = e.seconds * 1000 + e.subsecNanos / 1000000 := by
  unfold millis checkedMul checkedAdd at h
  by_cases h1 : e.seconds * 1000 < U64_MOD
  · rw [if_pos h1, Option.some_bind] at h
    by_cases h2 : e.seconds * 1000 + e.subsecNanos / 1000000 < U64_MOD
    · rw [if_pos h2] at h
      exact (Option.some_inj.mp h).symm
    · rw [if_neg h2] at h
      exact absurd h (by simp)
  · rw [if_neg h1, Option.none_bind] at h
    exact absurd h (by simp)

theorem micros_inv (e : ElapsedDuration) (uv : Nat) (h : e.micros = some uv) :
    uv = e.seconds * 1000000 + e.subsecNanos / 1000 := by
  unfold micros checkedMul checkedAdd at h
  by_cases h1 : e.seconds * 1000000 < U64_MOD
  · rw [if_pos h1, Option.some_bind] at h
    by_cases h2 : e.seconds * 1000000 + e.subsecNanos / 1000 < U64_MOD
    · rw [if_pos h2] at h
      exact (Option.some_inj.mp h).symm
    · rw [if_neg h2] at h
      exact absurd h (by simp)
  · rw [if_neg h1, Option.none_bind] at h
    exact absurd h (by simp)

theorem nanos_inv (e : ElapsedDuration) (nv : Nat) (h : e.nanos = some nv) :
    nv = e.seconds * 1000000000 + e.subsecNanos := by
  unfold nanos checkedMul checkedAdd at h
  by_cases h1 : e.seconds * 1000000000 < U64_MOD
  · rw [if_pos h1, Option.some_bind] at h
    by_cases h2 : e.seconds * 1000000000 + e.subsecNanos < U64_MOD
    · rw [if_pos h2] at h
      exact (Option.some_inj.mp h).symm
    · rw [if_neg h2] at h
      exact absurd h (by simp)
  · rw [if_neg h1, Option.none_bind] at h
    exact absurd h (by simp)

end ElapsedDuration

/-- C4: whenever the scaled accessors return (no overflow), they agree
down to truncation: `nanos() / 1000 = micros()`, `micros() / 1000 =
millis()`, and `millis() / 1000 = seconds()`. -/
theorem accessors_mutually_consistent (e : ElapsedDuration) (hWF : e.WF)
    (nv uv mv : Nat) (hnv : e.nanos = some nv) (huv : e.micros = some uv)
    (hmv : e.millis = some mv) :
    nv / 1000 = uv ∧ uv / 1000 = mv ∧ mv / 1000 = e.seconds := by
  obtain ⟨hsWF, hnWF⟩ := hWF
  have hneq : e.subsecNanos = e.dur.subsecNanos := rfl
  have h1 := e.nanos_inv nv hnv
  have h2 := e.micros_inv uv huv
  have h3 := e.millis_inv mv hmv
  refine ⟨?_, ?_, ?_⟩ <;> omega

/-- C4 witness: consistency at seconds=92, subsecond=62_013_047. -/
theorem accessors_mutually_consistent_witness :
    92062013047 / 1000 = 92062013 ∧ 92062013 / 1000 = 92062 ∧
    92062 / 1000 = (ElapsedDuration.mk ⟨92, 62013047⟩).seconds :=
  accessors_mutually_consistent ⟨⟨92, 62013047⟩⟩ (by decide) 92062013047 92062013 92062
    (by decide) (by decide) (by decide)

/-- C5: when `seconds()*1000 + subsec/1e6` leaves the u64 range, the
formatting call fails loudly (the modelled panic, `none`) instead of
producing a wrapped or saturated string. -/
theorem display_overflow_fails_loudly (e : ElapsedDuration) (hWF : e.WF)
    (hov : U64_MOD ≤ e.specMillis) : e.display = none := by
  obtain ⟨hsWF, hnWF⟩ := hWF
  have hneq : e.subsecNanos = e.dur.subsecNanos := rfl
  have hseq : e.seconds = e.dur.secs := rfl
  have h0 : 0 < e.seconds := by
    unfold ElapsedDuration.specMillis U64_MOD at hov
    omega
  have hmnone : e.millis = none := by
    unfold ElapsedDuration.specMillis at hov
    unfold ElapsedDuration.millis checkedMul checkedAdd
    by_cases hc : e.seconds * 1000 < U64_MOD
    · rw [if_pos hc, Option.some_bind, if_neg (by omega)]
    · rw [if_neg hc, Option.none_bind]
  unfold ElapsedDuration.display ElapsedDuration.unitSelect
  rw [if_pos h0, hmnone]
  rfl

/-- C5 witness: formatting at seconds = 2^64 - 1 (the input of the crate
test `panics_on_huge_times`) panics. -/
theorem display_overflow_fails_loudly_witness :
    ElapsedDuration.display ⟨⟨18446744073709551615, 0⟩⟩ = none :=
  display_overflow_fails_loudly ⟨⟨18446744073709551615, 0⟩⟩ (by decide) (by decide)

/-- C6 counterexample: `millis()` does fail (panic, modelled `none`) on a
representable duration, namely seconds = 2^64 - 1; so "never fails, for
every representable duration value" is false as stated. -/
theorem accessors_never_fail_cex :
    (ElapsedDuration.mk ⟨18446744073709551615, 0⟩).WF ∧
    (ElapsedDuration.mk ⟨18446744073709551615, 0⟩).millis = none := by
  constructor
  · decide
  · decide

/-- C6 amended: the accessors are pure functions of the two fields;
`seconds()` never fails, and `millis()`, `micros()`, `nanos()` never fail
whenever their scaled value fits in u64 (on overflow they panic). -/
theorem accessors_pure_total_unless_overflow (e : ElapsedDuration) (_hWF : e.WF) :
    e.seconds = e.dur.secs ∧
    (e.specMillis < U64_MOD → e.millis = some e.specMillis) ∧
    (e.specMicros < U64_MOD → e.micros = some e.specMicros) ∧
    (e.specNanos < U64_MOD → e.nanos = some e.specNanos) :=
  ⟨rfl, e.millis_eq, e.micros_eq, e.nanos_eq⟩

/-- C6 amended witness: totality of all accessors at seconds=92,
subsecond=62_013_047. -/
theorem accessors_pure_total_unless_overflow_witness :
    (ElapsedDuration.mk ⟨92, 62013047⟩).seconds = 92 ∧
    (ElapsedDuration.mk ⟨92, 62013047⟩).millis =
      some (ElapsedDuration.mk ⟨92, 62013047⟩).specMillis ∧
    (ElapsedDuration.mk ⟨92, 62013047⟩).micros =
      some (ElapsedDuration.mk ⟨92, 62013047⟩).specMicros ∧
    (ElapsedDuration.mk ⟨92, 62013047⟩).nanos =
      some (ElapsedDuration.mk ⟨92, 62013047⟩).specNanos := by
  have h := accessors_pure_total_unless_overflow ⟨⟨92, 62013047⟩⟩ (by decide)
  exact ⟨h.1, h.2.1 (by decide), h.2.2.1 (by decide), h.2.2.2 (by decide)⟩

/-- C7: the bare "20.00 s" composed with the width-20 padding mechanism:
left alignment (also the default) appends 13 spaces, right alignment
prepends 13 spaces, center alignment splits the padding 6 before and
7 after. -/
theorem display_padding_examples :
    displayPadded ⟨⟨20, 0⟩⟩ 20 PadAlignment.left ' ' = some "20.00 s             " ∧
    displayPadded ⟨⟨20, 0⟩⟩ 20 defaultAlignment ' ' = some "20.00 s             " ∧
    displayPadded ⟨⟨20, 0⟩⟩ 20 PadAlignment.right ' ' = some "             20.00 s" ∧
    displayPadded ⟨⟨20, 0⟩⟩ 20 PadAlignment.center ' ' = some "      20.00 s       " := by
  decide

/-- C8: with monotonic clock samples t0 (just before the call) and t1
(just after the return), measure_time runs `f` once and returns the pair
of the elapsed interval `t1 - t0` (as seconds plus subsecond nanoseconds)
and the unmodified return value `f ()`. -/
theorem measure_time_runs_once_and_returns_pair {α : Type} (t0 t1 : Nat) (h : t0 ≤ t1)
    (f : Unit → α) :
    measure_time t0 t1 f =
      some (ElapsedDuration.new ⟨(t1 - t0) / 1000000000, (t1 - t0) % 1000000000⟩, f ()) := by
  unfold measure_time instantSub
  rw [if_pos h]
  rfl

/-- C8 witness: a 100ms interval around an operation returning 92. -/
theorem measure_time_runs_once_and_returns_pair_witness :
    measure_time 5 100000005 (fun _ => (92 : Nat)) =
      some (ElapsedDuration.new ⟨0, 100000000⟩, 92) :=
  measure_time_runs_once_and_returns_pair 5 100000005 (by decide) (fun _ => (92 : Nat))

/-- C9: construction round-trips with raw access: `new` performs no
validation and `duration()` gives back exactly the wrapped duration. -/
theorem new_duration_roundtrip (d : Duration) :
    (ElapsedDuration.new d).duration = d := rfl

/-- Byte count of the UTF-8 encoding of `s`: the number of bytes `write!`
emits into the 128-byte buffer. -/
def utf8Bytes (s : String) : Nat :=
  (s.data.map Char.utf8Size).sum

theorem utf8Bytes_append (a b : String) :
    utf8Bytes (a ++ b) = utf8Bytes a + utf8Bytes b := by
  unfold utf8Bytes
  rw [String.data_append, List.map_append, List.sum_append]

theorem digitChar_utf8Size (d : Nat) (h : d < 10) : (Nat.digitChar d).utf8Size = 1 := by
  interval_cases d <;> decide

theorem natDigitsRev_utf8 (fuel n : Nat) :
    ((natDigitsRev fuel n).map Char.utf8Size).sum = (natDigitsRev fuel n).length := by
  induction fuel generalizing n with
  | zero => rfl
  | succ fuel ih =>
    unfold natDigitsRev
    split
    · rfl
    · simp only [List.map_cons, List.sum_cons, List.length_cons,
        digitChar_utf8Size (n % 10) (Nat.mod_lt n (by norm_num)), ih (n / 10)]
      omega

theorem natDigitsRev_length_le (fuel n k : Nat) (h : n < 10 ^ k) :
    (natDigitsRev fuel n).length ≤ k := by
  induction fuel generalizing n k with
  | zero => simp [natDigitsRev]
  | succ fuel ih =>
    unfold natDigitsRev
    split
    · simp
    · have hk : 0 < k := by
        rcases k with _ | k
        · simp at h
          omega
        · omega
      have hdiv : n / 10 < 10 ^ (k - 1) := by
        rw [Nat.div_lt_iff_lt_mul (by norm_num)]
        calc n < 10 ^ k := h
        _ = 10 ^ (k - 1) * 10 := by
          rw [← pow_succ]
          congr 1
          omega
      have := ih (n / 10) (k - 1) hdiv
      simp only [List.length_cons]
      omega

theorem utf8Bytes_natToString_le (n k : Nat) (hk : 0 < k) (h : n < 10 ^ k) :
    utf8Bytes (natToString n) ≤ k := by
  unfold natToString
  split
  · calc utf8Bytes "0" = 1 := rfl
    _ ≤ k := hk
  · show ((String.mk (natDigitsRev n n).reverse).data.map Char.utf8Size).sum ≤ k
    show (((natDigitsRev n n).reverse).map Char.utf8Size).sum ≤ k
    rw [List.map_reverse, List.sum_reverse, natDigitsRev_utf8]
    exact natDigitsRev_length_le n n k h

theorem utf8Bytes_twoDigits_le (n : Nat) (h : n < 100) : utf8Bytes (twoDigits n) ≤ 2 := by
  unfold twoDigits
  split
  · rw [utf8Bytes_append]
    have h1 := utf8Bytes_natToString_le n 1 (by norm_num) (by omega)
    have h0 : utf8Bytes "0" = 1 := rfl
    omega
  · exact utf8Bytes_natToString_le n 2 (by norm_num) (by omega)

theorem roundHalfEven_le (v : Nat) : roundHalfEven v ≤ v / 10 + 1 := by
  unfold roundHalfEven
  split_ifs <;> omega

theorem utf8Bytes_fmtFixed2_le (v : Nat) (hv : v < U64_MOD) :
    utf8Bytes (fmtFixed2 v) ≤ 20 := by
  have hc := roundHalfEven_le v
  unfold fmtFixed2
  rw [utf8Bytes_append, utf8Bytes_append]
  have h1 : utf8Bytes (natToString (roundHalfEven v / 100)) ≤ 17 := by
    apply utf8Bytes_natToString_le _ 17 (by norm_num)
    rw [show (10 : Nat) ^ 17 = 100000000000000000 by norm_num]
    unfold U64_MOD at hv
    omega
  have h2 : utf8Bytes "." = 1 := rfl
  have h3 : utf8Bytes (twoDigits (roundHalfEven v % 100)) ≤ 2 :=
    utf8Bytes_twoDigits_le _ (Nat.mod_lt _ (by norm_num))
  omega

theorem render_eval (d1 d2 : Nat) (t : String) (hle : d1 * 1000 ≤ d2) (hlt : d2 < U64_MOD) :
    ElapsedDuration.render (d1, d2, t) = some (fmtFixed2 d2 ++ " " ++ t) := by
  unfold ElapsedDuration.render checkedMul checkedSub
  rw [if_pos (show d1 * 1000 < U64_MOD by omega), Option.some_bind, if_pos hle]
  show some (fmtFixed2 (d1 * 1000 + (d2 - d1 * 1000)) ++ " " ++ t) = _
  rw [show d1 * 1000 + (d2 - d1 * 1000) = d2 from by omega]

theorem utf8Bytes_render_le (d2 : Nat) (t : String) (hlt : d2 < U64_MOD)
    (ht : utf8Bytes t ≤ 3) :
    utf8Bytes (fmtFixed2 d2 ++ " " ++ t) ≤ 128 := by
  rw [utf8Bytes_append, utf8Bytes_append]
  have h1 := utf8Bytes_fmtFixed2_le d2 hlt
  have h2 : utf8Bytes " " = 1 := rfl
  omega

/-- C10: whenever the unit-scaling arithmetic does not overflow, the
rendering steps cannot fail: the "{:.2} <suffix>" string is at most 24
bytes, far within the 128-byte buffer, and as a sequence of unicode
characters its UTF-8 encoding is valid by construction, so the two
internal unwrap points are unreachable. -/
theorem render_never_fails (e : ElapsedDuration) (hWF : e.WF)
    (hov : e.specMillis < U64_MOD) :
    ∃ s, e.display = some s ∧ utf8Bytes s ≤ 128 := by
  obtain ⟨hsWF, hnWF⟩ := hWF
  have hneq : e.subsecNanos = e.dur.subsecNanos := rfl
  have hseq : e.seconds = e.dur.secs := rfl
  unfold ElapsedDuration.display
  rw [ElapsedDuration.unitSelect_eq e ⟨hsWF, hnWF⟩ hov, Option.some_bind]
  split_ifs with h0 h1 h2
  · rw [render_eval e.seconds e.specMillis "s"
      (by unfold ElapsedDuration.specMillis; omega) hov]
    exact ⟨_, rfl, utf8Bytes_render_le e.specMillis "s" hov (by decide)⟩
  · have h0z : e.seconds = 0 := by omega
    have hlt2 : e.specMicros < U64_MOD := e.specMicros_lt_of_seconds_eq_zero ⟨hsWF, hnWF⟩ h0z
    rw [render_eval e.specMillis e.specMicros "ms" (by
        unfold ElapsedDuration.specMillis ElapsedDuration.specMicros
        rw [h0z]
        omega) hlt2]
    exact ⟨_, rfl, utf8Bytes_render_le e.specMicros "ms" hlt2 (by decide)⟩
  · have h0z : e.seconds = 0 := by omega
    have hlt3 : e.specNanos < U64_MOD := e.specNanos_lt_of_seconds_eq_zero ⟨hsWF, hnWF⟩ h0z
    rw [render_eval e.specMicros e.specNanos "μs" (by
        unfold ElapsedDuration.specMicros ElapsedDuration.specNanos
        rw [h0z]
        omega) hlt3]
    exact ⟨_, rfl, utf8Bytes_render_le e.specNanos "μs" hlt3 (by decide)⟩
  · have h0z : e.seconds = 0 := by omega
    have hlt4 : e.specNanos * 1000 < U64_MOD := by
      unfold ElapsedDuration.specNanos U64_MOD
      rw [h0z]
      omega
    rw [render_eval e.specNanos (e.specNanos * 1000) "ns" (Nat.le_refl _) hlt4]
    exact ⟨_, rfl, utf8Bytes_render_le _ "ns" hlt4 (by decide)⟩

/-- C10 witness: the rendering at seconds=1, subsecond=300_000_000. -/
theorem render_never_fails_witness :
    ∃ s, ElapsedDuration.display ⟨⟨1, 300000000⟩⟩ = some s ∧ utf8Bytes s ≤ 128 :=
  render_never_fails ⟨⟨1, 300000000⟩⟩ (by decide) (by decide)
